import Mathlib

/-!
# dnspod-go: records and user operations

A shallow embedding of `domain_records.go` and `user.go`.

* Go strings are Lean strings, Go `int` is `Int` (no arithmetic is performed on them).
* A Go `error` is `Option GoError`, `nil` being `none`; a `*Response` is `Option Resp`.
* `url.Values` is a finite map from keys to lists of values, written as a function into `Option`.
* The transport `client.post(path, payload, &out)` is a field of the client: a function
  from the path and the payload to the decoded target, the response and the error.
-/

namespace Dnspod

/-! ## Errors -/

/-- Go error value, identified by the text its `Error()` method returns. -/
structure GoError where
  text : String
  deriving DecidableEq, Repr

/-- Call `fmt.Errorf(lead + "%s", arg)` for a string argument: the verb is replaced by the
argument, nothing else is added. -/
def Errorf (lead arg : String) : GoError := ⟨lead ++ arg⟩

/-! ## url.Values -/

/-- Go `url.Values`, that is `map[string][]string`: `none` is an absent key. -/
abbrev Values := String → Option (List String)

/-- Empty `url.Values{}`. -/
def Values.empty : Values := fun _ => none

/-- Go `Values.Add`: `v[key] = append(v[key], value)`. -/
def Values.Add (v : Values) (key value : String) : Values :=
  fun k => if k = key then some ((v key).getD [] ++ [value]) else v k

/-- Go `Values.Set`: `v[key] = []string{value}`. -/
def Values.Set (v : Values) (key value : String) : Values :=
  fun k => if k = key then some [value] else v k

/-- Go `Values.Get`: the first value under the key, or the empty string. -/
def Values.Get (v : Values) (key : String) : String :=
  match v key with
  | some (x :: _) => x
  | _ => ""

/-- Key membership of the map, `_, ok := v[key]`. -/
def Values.Has (v : Values) (key : String) : Prop := v key ≠ none

instance (v : Values) (key : String) : Decidable (v.Has key) := by
  unfold Values.Has; infer_instance

/-! ## Data model (domain_records.go 8-76, user.go 7-37) -/

/-- Record of domain_records.go 8-27; every field is a Go string, zero value the empty string.
The Go field named Type is written Type_, the bare word being reserved. -/
structure Record where
  ID : String := ""
  Name : String := ""
  Line : String := ""
  LineID : String := ""
  Type_ : String := ""
  TTL : String := ""
  Value : String := ""
  MX : String := ""
  Enabled : String := ""
  Status : String := ""
  MonitorStatus : String := ""
  Remark : String := ""
  UpdateOn : String := ""
  UseAQB : String := ""
  SubDomain : String := ""
  RecordType : String := ""
  RecordLine : String := ""
  RecordLineID : String := ""
  deriving DecidableEq, Repr

/-- RecordsInfo of domain_records.go 29-32. -/
structure RecordsInfo where
  SubDomains : Int := 0
  RecordTotal : Int := 0
  deriving DecidableEq, Repr

/-- RecordLine of domain_records.go 39-42. -/
structure RecordLine where
  Line : String := ""
  LineID : String := ""
  deriving DecidableEq, Repr

/-- RecordQuery of domain_records.go 44-51. -/
structure RecordQuery where
  DomainID : String := ""
  Domain : String := ""
  CurrentPage : Int := 0
  PageSize : Int := 0
  SubDomain : String := ""
  Keyword : String := ""
  deriving DecidableEq, Repr

/-- PaginationRecordList of domain_records.go 53-58. -/
structure PaginationRecordList where
  CurrentPage : Int := 0
  PageSize : Int := 0
  Total : Int := 0
  List : List Record := []
  deriving DecidableEq, Repr

/-- Modelled from the spec: the type `Status` is declared outside src/; the spec gives the
envelope status block as a code and a message, both text, absent meaning empty. -/
structure Status where
  Code : String := ""
  Message : String := ""
  deriving DecidableEq, Repr

/-- Value of Go type `interface{}` as `encoding/json` produces it: the operations only ever
test whether it is a string. -/
inductive JsonValue where
  | str (s : String)
  | num (q : ℚ)
  | bool (b : Bool)
  | null
  | array (xs : List JsonValue)
  | object (kvs : List (String × JsonValue))

/-- linesWrapper of domain_records.go 60-64. The map `LineIDs` is given by its entries in the
order in which `range` visits them; Go leaves that order unspecified, so a property of
the map has to hold for every reordering of the entries. -/
structure linesWrapper where
  Lines : List String := []
  LineIDs : List (String × JsonValue) := []
  Status : Status := {}

/-- recordsWrapper of domain_records.go 66-70. -/
structure recordsWrapper where
  Status : Status := {}
  Info : RecordsInfo := {}
  Records : List Record := []
  deriving DecidableEq, Repr

/-- recordWrapper of domain_records.go 72-76; the type `DomainInfo` of its `Info` field is
declared outside src/ and is a parameter. -/
structure recordWrapper (DomainInfo : Type) where
  Status : Status := {}
  Info : DomainInfo
  Record : Record := {}

/-- User of user.go 7-23. -/
structure User where
  RealName : String := ""
  UserType : String := ""
  Tel : String := ""
  IM : String := ""
  Nick : String := ""
  ID : String := ""
  Email : String := ""
  Status : String := ""
  EmailVerified : String := ""
  TelVerified : String := ""
  WeixinBinded : String := ""
  AgentPending : Bool := false
  Balance : Int := 0
  SmsBalance : Int := 0
  UserGrade : String := ""
  deriving DecidableEq, Repr

/-- UserInfo of user.go 30-32. -/
structure UserInfo where
  User : User := {}
  deriving DecidableEq, Repr

/-- userWrapper of user.go 34-37. -/
structure userWrapper where
  Status : Status := {}
  Info : UserInfo := {}
  deriving DecidableEq, Repr

/-! ## The client and its transport -/

/-- What one call `res, err := s.client.post(path, payload, &out)` leaves behind: the decode
target `out` after the call, the response metadata and the error. -/
structure PostResult (Resp W : Type) where
  out : W
  res : Option Resp
  err : Option GoError

/-- The client as the operations see it. `newPayLoad` is the value of
`newPayLoad(s.client.CommonParams)` (both declared outside src/); the `post` fields are
`s.client.post` at each of the four decode targets the operations pass to it. `Resp` is the
type `Response`, also declared outside src/. -/
structure Client (Resp DomainInfo : Type) where
  newPayLoad : Values
  postRecords : String → Values → PostResult Resp recordsWrapper
  postRecord : String → Values → PostResult Resp (recordWrapper DomainInfo)
  postLines : String → Values → PostResult Resp linesWrapper
  postUser : String → Values → PostResult Resp userWrapper

/-! ## Operations -/

/-- recordAction of domain_records.go 79-84. -/
def recordAction (action : String) : String :=
  if action.utf8ByteSize > 0 then "Record." ++ action else "Record.List"

/-- userAction of user.go 39-44. -/
def userAction (action : String) : String :=
  if action = "" then "User.Info" else "User." ++ action

section
variable {Resp DomainInfo : Type}

/-- Form payload of ListRecords, domain_records.go 93-111. -/
def ListRecords.payload (c : Client Resp DomainInfo) (query : RecordQuery) : Values :=
  let payload := c.newPayLoad
  let payload := if query.DomainID ≠ "" then payload.Add "domain_id" query.DomainID else payload
  let payload := if query.Domain ≠ "" then payload.Add "domain" query.Domain else payload
  let payload :=
    if query.PageSize ≠ 0 then
      (payload.Add "offset" (toString query.CurrentPage)).Add "length" (toString query.PageSize)
    else payload
  let payload := if query.SubDomain ≠ "" then payload.Add "sub_domain" query.SubDomain else payload
  let payload := if query.Keyword ≠ "" then payload.Add "keyword" query.Keyword else payload
  payload

/-- The transport call of ListRecords, domain_records.go 115. -/
def ListRecords.call (c : Client Resp DomainInfo) (query : RecordQuery) :
    PostResult Resp recordsWrapper :=
  c.postRecords (recordAction "List") (ListRecords.payload c query)

/-- ListRecords of domain_records.go 90-130. -/
def ListRecords (c : Client Resp DomainInfo) (query : RecordQuery) :
    PaginationRecordList × Option Resp × Option GoError :=
  let r := ListRecords.call c query
  let wrappedRecords := r.out
  match r.err with
  | some err => ({}, r.res, some err)
  | none =>
    if wrappedRecords.Status.Code ≠ "1" then
      ({}, none, some (Errorf "Could not get domains: " wrappedRecords.Status.Message))
    else
      ({ CurrentPage := query.CurrentPage
         PageSize := query.PageSize
         Total := wrappedRecords.Info.RecordTotal
         List := wrappedRecords.Records }, r.res, none)

/-- The eight conditional `payload.Add` calls shared by CreateRecord (domain_records.go
142-172) and UpdateRecord (237-267). -/
def addRecordAttributes (payload : Values) (recordAttributes : Record) : Values :=
  let payload :=
    if recordAttributes.Name ≠ "" then payload.Add "sub_domain" recordAttributes.Name else payload
  let payload :=
    if recordAttributes.Type_ ≠ "" then payload.Add "record_type" recordAttributes.Type_ else payload
  let payload :=
    if recordAttributes.Line ≠ "" then payload.Add "record_line" recordAttributes.Line else payload
  let payload :=
    if recordAttributes.LineID ≠ "" then payload.Add "record_line_id" recordAttributes.LineID
    else payload
  let payload :=
    if recordAttributes.Value ≠ "" then payload.Add "value" recordAttributes.Value else payload
  let payload :=
    if recordAttributes.MX ≠ "" then payload.Add "mx" recordAttributes.MX else payload
  let payload :=
    if recordAttributes.TTL ≠ "" then payload.Add "ttl" recordAttributes.TTL else payload
  let payload :=
    if recordAttributes.Status ≠ "" then payload.Add "status" recordAttributes.Status else payload
  payload

/-- Form payload of CreateRecord, domain_records.go 138-172. -/
def CreateRecord.payload (c : Client Resp DomainInfo) (domain : String)
    (recordAttributes : Record) : Values :=
  addRecordAttributes (c.newPayLoad.Add "domain_id" domain) recordAttributes

/-- The transport call of CreateRecord, domain_records.go 176. -/
def CreateRecord.call (c : Client Resp DomainInfo) (domain : String)
    (recordAttributes : Record) : PostResult Resp (recordWrapper DomainInfo) :=
  c.postRecord (recordAction "Create") (CreateRecord.payload c domain recordAttributes)

/-- CreateRecord of domain_records.go 135-186. -/
def CreateRecord (c : Client Resp DomainInfo) (domain : String) (recordAttributes : Record) :
    Record × Option Resp × Option GoError :=
  let r := CreateRecord.call c domain recordAttributes
  let returnedRecord := r.out
  match r.err with
  | some err => ({}, r.res, some err)
  | none =>
    if returnedRecord.Status.Code ≠ "1" then
      (returnedRecord.Record, none,
        some (Errorf "Could not get domains: " returnedRecord.Status.Message))
    else
      (returnedRecord.Record, r.res, none)

/-- Form payload of GetRecord, domain_records.go 194-197. -/
def GetRecord.payload (c : Client Resp DomainInfo) (domain recordID : String) : Values :=
  (c.newPayLoad.Add "domain_id" domain).Add "record_id" recordID

/-- The transport call of GetRecord, domain_records.go 201. -/
def GetRecord.call (c : Client Resp DomainInfo) (domain recordID : String) :
    PostResult Resp (recordWrapper DomainInfo) :=
  c.postRecord (recordAction "Info") (GetRecord.payload c domain recordID)

/-- The alias pass of GetRecord, domain_records.go 209-221: four guarded assignments on a
copy of the decoded record, in source order. -/
def normalize (record : Record) : Record :=
  let record :=
    if record.Type_ = "" ∧ record.RecordType ≠ "" then { record with Type_ := record.RecordType }
    else record
  let record :=
    if record.Line = "" ∧ record.RecordLine ≠ "" then { record with Line := record.RecordLine }
    else record
  let record :=
    if record.LineID = "" ∧ record.RecordLineID ≠ "" then
      { record with LineID := record.RecordLineID }
    else record
  let record :=
    if record.Name = "" ∧ record.SubDomain ≠ "" then { record with Name := record.SubDomain }
    else record
  record

/-- GetRecord of domain_records.go 191-223. -/
def GetRecord (c : Client Resp DomainInfo) (domain recordID : String) :
    Record × Option Resp × Option GoError :=
  let r := GetRecord.call c domain recordID
  let returnedRecord := r.out
  match r.err with
  | some err => ({}, r.res, some err)
  | none =>
    if returnedRecord.Status.Code ≠ "1" then
      (returnedRecord.Record, none,
        some (Errorf "Could not get domains: " returnedRecord.Status.Message))
    else
      (normalize returnedRecord.Record, r.res, none)

/-- Form payload of UpdateRecord, domain_records.go 231-267. -/
def UpdateRecord.payload (c : Client Resp DomainInfo) (domain recordID : String)
    (recordAttributes : Record) : Values :=
  addRecordAttributes ((c.newPayLoad.Add "domain_id" domain).Add "record_id" recordID)
    recordAttributes

/-- The transport call of UpdateRecord, domain_records.go 271. -/
def UpdateRecord.call (c : Client Resp DomainInfo) (domain recordID : String)
    (recordAttributes : Record) : PostResult Resp (recordWrapper DomainInfo) :=
  c.postRecord (recordAction "Modify") (UpdateRecord.payload c domain recordID recordAttributes)

/-- UpdateRecord of domain_records.go 228-281. -/
def UpdateRecord (c : Client Resp DomainInfo) (domain recordID : String)
    (recordAttributes : Record) : Record × Option Resp × Option GoError :=
  let r := UpdateRecord.call c domain recordID recordAttributes
  let returnedRecord := r.out
  match r.err with
  | some err => ({}, r.res, some err)
  | none =>
    if returnedRecord.Status.Code ≠ "1" then
      (returnedRecord.Record, none,
        some (Errorf "Could not get domains: " returnedRecord.Status.Message))
    else
      (returnedRecord.Record, r.res, none)

/-- Form payload of DeleteRecord, domain_records.go 289-292. -/
def DeleteRecord.payload (c : Client Resp DomainInfo) (domain recordID : String) : Values :=
  (c.newPayLoad.Add "domain_id" domain).Add "record_id" recordID

/-- The transport call of DeleteRecord, domain_records.go 296. -/
def DeleteRecord.call (c : Client Resp DomainInfo) (domain recordID : String) :
    PostResult Resp (recordWrapper DomainInfo) :=
  c.postRecord (recordAction "Remove") (DeleteRecord.payload c domain recordID)

/-- DeleteRecord of domain_records.go 286-306. -/
def DeleteRecord (c : Client Resp DomainInfo) (domain recordID : String) :
    Option Resp × Option GoError :=
  let r := DeleteRecord.call c domain recordID
  let returnedRecord := r.out
  match r.err with
  | some err => (r.res, some err)
  | none =>
    if returnedRecord.Status.Code ≠ "1" then
      (none, some (Errorf "could not delete record: " returnedRecord.Status.Message))
    else
      (r.res, none)

/-- Form payload of UpdateRecordStatus, domain_records.go 310-313. -/
def UpdateRecordStatus.payload (c : Client Resp DomainInfo)
    (domainID recordID status : String) : Values :=
  ((c.newPayLoad.Add "domain_id" domainID).Add "record_id" recordID).Add "status" status

/-- The transport call of UpdateRecordStatus, domain_records.go 317. -/
def UpdateRecordStatus.call (c : Client Resp DomainInfo) (domainID recordID status : String) :
    PostResult Resp (recordWrapper DomainInfo) :=
  c.postRecord (recordAction "Status") (UpdateRecordStatus.payload c domainID recordID status)

/-- UpdateRecordStatus of domain_records.go 308-325. -/
def UpdateRecordStatus (c : Client Resp DomainInfo) (domainID recordID status : String) :
    Option Resp × Option GoError :=
  let r := UpdateRecordStatus.call c domainID recordID status
  let returnedRecord := r.out
  match r.err with
  | some err => (r.res, some err)
  | none =>
    if returnedRecord.Status.Code ≠ "1" then
      (none, some (Errorf "could not change record status: " returnedRecord.Status.Message))
    else
      (r.res, none)

/-- Go type assertion `s, ok := v.(string)`: the string and true for a string, the zero
string and false for anything else. -/
def JsonValue.assertString : JsonValue → String × Bool
  | .str s => (s, true)
  | _ => ("", false)

/-- One iteration of the loop of GetRecordLine, domain_records.go 341-354. -/
def GetRecordLine.step (ret : List RecordLine) (kv : String × JsonValue) : List RecordLine :=
  let k := kv.1
  let v := kv.2
  let (s, ok) := v.assertString
  if !ok && k == "默认" then
    ret ++ [{ Line := k, LineID := "0" }]
  else
    ret ++ [{ Line := k, LineID := s }]

/-- The loop of GetRecordLine, domain_records.go 340-354, over the entries in the order in
which `range` visits them, starting from the nil slice. -/
def GetRecordLine.reshape (lineIDs : List (String × JsonValue)) : List RecordLine :=
  lineIDs.foldl GetRecordLine.step []

/-- Form payload of GetRecordLine, domain_records.go 329-331. -/
def GetRecordLine.payload (c : Client Resp DomainInfo) (domainGrade domainID : String) :
    Values :=
  (c.newPayLoad.Set "domain_grade" domainGrade).Set "domain_id" domainID

/-- The transport call of GetRecordLine, domain_records.go 333. -/
def GetRecordLine.call (c : Client Resp DomainInfo) (domainGrade domainID : String) :
    PostResult Resp linesWrapper :=
  c.postLines (recordAction "Line") (GetRecordLine.payload c domainGrade domainID)

/-- GetRecordLine of domain_records.go 327-356. -/
def GetRecordLine (c : Client Resp DomainInfo) (domainGrade domainID : String) :
    List RecordLine × Option Resp × Option GoError :=
  let r := GetRecordLine.call c domainGrade domainID
  let lines := r.out
  match r.err with
  | some err => ([], r.res, some err)
  | none =>
    if lines.Status.Code ≠ "1" then
      ([], none, some (Errorf "could not get record line: " lines.Status.Message))
    else
      (GetRecordLine.reshape lines.LineIDs, r.res, none)

/-- The transport call of GetUserInfo, user.go 50-52. -/
def GetUserInfo.call (c : Client Resp DomainInfo) : PostResult Resp userWrapper :=
  c.postUser (userAction "Detail") c.newPayLoad

/-- GetUserInfo of user.go 46-60. -/
def GetUserInfo (c : Client Resp DomainInfo) : User × Option Resp × Option GoError :=
  let r := GetUserInfo.call c
  let wrapper := r.out
  match r.err with
  | some err => ({}, r.res, some err)
  | none =>
    if wrapper.Status.Code ≠ "1" then
      ({}, r.res, some (Errorf "unexpected error: " wrapper.Status.Message))
    else
      (wrapper.Info.User, r.res, r.err)

end

/-! ## Vocabulary of the statements -/

/-- First non-empty of a primary and an alias value, empty when both are empty. -/
def firstNonEmpty (primary alias_ : String) : String :=
  if primary ≠ "" then primary else if alias_ ≠ "" then alias_ else ""

/-- Text `s` has `sub` as a contiguous piece. -/
def ContainsText (s sub : String) : Prop := ∃ before after : String, s = before ++ sub ++ after

/-- The RecordLine the loop of GetRecordLine appends for one entry, read off the two
branches of domain_records.go 343-353. -/
def GetRecordLine.entry (kv : String × JsonValue) : RecordLine :=
  match kv.2 with
  | .str s => { Line := kv.1, LineID := s }
  | _ => if kv.1 = "默认" then { Line := kv.1, LineID := "0" } else { Line := kv.1, LineID := "" }

/-- The RecordLine a map entry stands for: the key with its text, and the default line
with identifier "0" for a value that is not text. -/
def expectedLine (kv : String × JsonValue) : RecordLine :=
  match kv.2 with
  | .str s => { Line := kv.1, LineID := s }
  | _ => { Line := "默认", LineID := "0" }

/-- Value of a map entry is text. -/
def JsonValue.isText : JsonValue → Bool
  | .str _ => true
  | _ => false

/-- A client for the examples: no common parameters, and a transport that answers every
request with response 200 and the given error, status block, record, record list and
line map. -/
def exampleClient (err : Option GoError) (status : Status) (record : Record)
    (records : List Record) (lineIDs : List (String × JsonValue)) : Client Nat Unit where
  newPayLoad := Values.empty
  postRecords := fun _ _ =>
    ⟨{ Status := status, Info := { RecordTotal := 2 }, Records := records }, some 200, err⟩
  postRecord := fun _ _ => ⟨{ Status := status, Info := (), Record := record }, some 200, err⟩
  postLines := fun _ _ => ⟨{ LineIDs := lineIDs, Status := status }, some 200, err⟩
  postUser := fun _ _ =>
    ⟨{ Status := status, Info := { User := { ID := "730060", Nick := "dnspod" } } }, some 200, err⟩

/-- The verdict an operation passes on a decoded status block: it returns an error exactly
when the code is not "1", and the text of that error is `lead` followed by the provider
message, which it therefore contains. -/
def StatusVerdict (lead : String) (status : Status) (err : Option GoError) : Prop :=
  (err ≠ none ↔ status.Code ≠ "1") ∧
  ∀ e, err = some e → e.text = lead ++ status.Message ∧ ContainsText e.text status.Message

/-- The failed status block of the spec example. -/
def badToken : Status := { Code := "0", Message := "bad token" }

/-- The key is in the payload exactly when the field is non-empty, and then the key carries
exactly the value of the field. -/
def CarriesIff (payload : Values) (key field : String) : Prop :=
  (payload.Has key ↔ field ≠ "") ∧ (field ≠ "" → payload key = some [field])

/-- The eight form keys under which CreateRecord and UpdateRecord encode a record. -/
def recordKeys : List String :=
  ["sub_domain", "record_type", "record_line", "record_line_id", "value", "mx", "ttl", "status"]

/-- The six form keys under which ListRecords encodes a query. -/
def queryKeys : List String :=
  ["domain_id", "domain", "offset", "length", "sub_domain", "keyword"]

/-- The record `encoding/json` decodes, by the struct tags of domain_records.go 8-27, from a
JSON object whose members are the eight form keys of a record, each with the text the
form carries under that key: sub_domain, record_type, record_line and record_line_id fill
the alias fields, value, mx, ttl and status their own fields, and nothing else is set. -/
def echoRecord (form : Values) : Record :=
  { SubDomain := form.Get "sub_domain"
    RecordType := form.Get "record_type"
    RecordLine := form.Get "record_line"
    RecordLineID := form.Get "record_line_id"
    Value := form.Get "value"
    MX := form.Get "mx"
    TTL := form.Get "ttl"
    Status := form.Get "status" }

/-- A record with all eight encoded fields set, for the examples. -/
def fullRecord : Record :=
  { Name := "www", Type_ := "MX", Line := "默认", LineID := "0", Value := "mail.example.com.",
    MX := "10", TTL := "600", Status := "enable" }

/-- A client whose Record.Info response echoes the form CreateRecord encodes for
`fullRecord`, over an empty base. -/
def echoClient : Client Nat Unit :=
  exampleClient none { Code := "1", Message := "Action completed successful" }
    (echoRecord (addRecordAttributes (Values.empty.Add "domain_id" "44146112") fullRecord)) [] []

/-- The successful status block of the tests. -/
def okStatus : Status := { Code := "1", Message := "Action completed successful" }

/-! ## Alias resolution of GetRecord -/

section
variable {Resp DomainInfo : Type}

theorem firstNonEmpty_empty_left (a : String) : firstNonEmpty "" a = a := by
  unfold firstNonEmpty
  by_cases h : a = "" <;> simp [h]

theorem normalize_fields (d : Record) :
    (normalize d).Type_ = firstNonEmpty d.Type_ d.RecordType ∧
    (normalize d).Line = firstNonEmpty d.Line d.RecordLine ∧
    (normalize d).LineID = firstNonEmpty d.LineID d.RecordLineID ∧
    (normalize d).Name = firstNonEmpty d.Name d.SubDomain := by
  unfold normalize firstNonEmpty
  refine ⟨?_, ?_, ?_, ?_⟩ <;> simp only [] <;> split_ifs <;> simp_all

theorem GetRecord_success (c : Client Resp DomainInfo) (domain recordID : String)
    (herr : (GetRecord.call c domain recordID).err = none)
    (hcode : (GetRecord.call c domain recordID).out.Status.Code = "1") :
    GetRecord c domain recordID =
      (normalize (GetRecord.call c domain recordID).out.Record,
        (GetRecord.call c domain recordID).res, none) := by
  simp [GetRecord, herr, hcode]

/-- C1: after a transport call without error and with status code "1", each of Type, Line,
LineID, Name of the record GetRecord returns is the decoded primary value when that is
non-empty, else the decoded alias when that is non-empty, else empty; and when the four
primaries are all empty (a response carrying only the aliases) the four canonical fields
are the four aliases. -/
theorem GetRecord_canonical_fields (c : Client Resp DomainInfo) (domain recordID : String)
    (herr : (GetRecord.call c domain recordID).err = none)
    (hcode : (GetRecord.call c domain recordID).out.Status.Code = "1") :
    ((GetRecord c domain recordID).1.Type_ =
        firstNonEmpty (GetRecord.call c domain recordID).out.Record.Type_
          (GetRecord.call c domain recordID).out.Record.RecordType ∧
      (GetRecord c domain recordID).1.Line =
        firstNonEmpty (GetRecord.call c domain recordID).out.Record.Line
          (GetRecord.call c domain recordID).out.Record.RecordLine ∧
      (GetRecord c domain recordID).1.LineID =
        firstNonEmpty (GetRecord.call c domain recordID).out.Record.LineID
          (GetRecord.call c domain recordID).out.Record.RecordLineID ∧
      (GetRecord c domain recordID).1.Name =
        firstNonEmpty (GetRecord.call c domain recordID).out.Record.Name
          (GetRecord.call c domain recordID).out.Record.SubDomain) ∧
    ((GetRecord.call c domain recordID).out.Record.Type_ = "" →
      (GetRecord.call c domain recordID).out.Record.Line = "" →
      (GetRecord.call c domain recordID).out.Record.LineID = "" →
      (GetRecord.call c domain recordID).out.Record.Name = "" →
      (GetRecord c domain recordID).1.Type_ =
          (GetRecord.call c domain recordID).out.Record.RecordType ∧
        (GetRecord c domain recordID).1.Line =
          (GetRecord.call c domain recordID).out.Record.RecordLine ∧
        (GetRecord c domain recordID).1.LineID =
          (GetRecord.call c domain recordID).out.Record.RecordLineID ∧
        (GetRecord c domain recordID).1.Name =
          (GetRecord.call c domain recordID).out.Record.SubDomain) := by
  rw [GetRecord_success c domain recordID herr hcode]
  have h := normalize_fields (GetRecord.call c domain recordID).out.Record
  refine ⟨h, fun h1 h2 h3 h4 => ?_⟩
  obtain ⟨t, l, i, n⟩ := h
  simp only [] at t l i n ⊢
  rw [t, l, i, n, h1, h2, h3, h4]
  exact ⟨firstNonEmpty_empty_left _, firstNonEmpty_empty_left _, firstNonEmpty_empty_left _,
    firstNonEmpty_empty_left _⟩

/-- Witness of C1: a Record.Info response that carries only record_type, record_line,
record_line_id and sub_domain comes back with Type, Line, LineID and Name set from them. -/
theorem GetRecord_canonical_fields_witness :
    (GetRecord.call (exampleClient none okStatus
        { ID := "26954449", RecordType := "A", RecordLine := "默认", RecordLineID := "0",
          SubDomain := "www" } [] []) "44146112" "26954449").err = none ∧
    (GetRecord (exampleClient none okStatus
        { ID := "26954449", RecordType := "A", RecordLine := "默认", RecordLineID := "0",
          SubDomain := "www" } [] []) "44146112" "26954449").1.Type_ = "A" ∧
    (GetRecord (exampleClient none okStatus
        { ID := "26954449", RecordType := "A", RecordLine := "默认", RecordLineID := "0",
          SubDomain := "www" } [] []) "44146112" "26954449").1.Line = "默认" ∧
    (GetRecord (exampleClient none okStatus
        { ID := "26954449", RecordType := "A", RecordLine := "默认", RecordLineID := "0",
          SubDomain := "www" } [] []) "44146112" "26954449").1.LineID = "0" ∧
    (GetRecord (exampleClient none okStatus
        { ID := "26954449", RecordType := "A", RecordLine := "默认", RecordLineID := "0",
          SubDomain := "www" } [] []) "44146112" "26954449").1.Name = "www" :=
  ⟨rfl, (GetRecord_canonical_fields (exampleClient none okStatus
        { ID := "26954449", RecordType := "A", RecordLine := "默认", RecordLineID := "0",
          SubDomain := "www" } [] []) "44146112" "26954449" rfl rfl).2 rfl rfl rfl rfl⟩

/-! ## The line map of GetRecordLine -/

theorem GetRecordLine.step_eq (ret : List RecordLine) (kv : String × JsonValue) :
    GetRecordLine.step ret kv = ret ++ [GetRecordLine.entry kv] := by
  obtain ⟨k, v⟩ := kv
  cases v <;> by_cases hk : k = "默认" <;>
    simp [GetRecordLine.step, GetRecordLine.entry, JsonValue.assertString, hk]

theorem GetRecordLine.foldl_step (l : List (String × JsonValue)) (acc : List RecordLine) :
    l.foldl GetRecordLine.step acc = acc ++ l.map GetRecordLine.entry := by
  induction l generalizing acc with
  | nil => simp
  | cons kv rest ih => simp [List.foldl_cons, ih, GetRecordLine.step_eq]

theorem GetRecordLine.reshape_eq_map (l : List (String × JsonValue)) :
    GetRecordLine.reshape l = l.map GetRecordLine.entry := by
  simp [GetRecordLine.reshape, GetRecordLine.foldl_step]

theorem GetRecordLine_success (c : Client Resp DomainInfo) (domainGrade domainID : String)
    (herr : (GetRecordLine.call c domainGrade domainID).err = none)
    (hcode : (GetRecordLine.call c domainGrade domainID).out.Status.Code = "1") :
    GetRecordLine c domainGrade domainID =
      ((GetRecordLine.call c domainGrade domainID).out.LineIDs.map GetRecordLine.entry,
        (GetRecordLine.call c domainGrade domainID).res, none) := by
  simp [GetRecordLine, herr, hcode, GetRecordLine.reshape_eq_map]

theorem GetRecordLine.entry_eq_expected (kv : String × JsonValue)
    (h : kv.1 ≠ "默认" → kv.2.isText = true) : GetRecordLine.entry kv = expectedLine kv := by
  obtain ⟨k, v⟩ := kv
  cases v <;> by_cases hk : k = "默认" <;>
    simp_all [GetRecordLine.entry, expectedLine, JsonValue.isText]

/-- C2: let `m` list the entries of the line_ids map, every value text except possibly the
one under "默认", and let the loop of a successful GetRecordLine visit them in any order
(the decoded `LineIDs` is a permutation of `m`). Then the result is, as a multiset, one
RecordLine per entry, `(k, v)` for a text value and `("默认", "0")` for the non-text value
under "默认"; its length is the number of entries; and for the map of the test the result
is a permutation of `("国内", "7=0")`, `("默认", "0")`. -/
theorem GetRecordLine_one_line_per_key (c : Client Resp DomainInfo)
    (domainGrade domainID : String) (m : List (String × JsonValue))
    (herr : (GetRecordLine.call c domainGrade domainID).err = none)
    (hcode : (GetRecordLine.call c domainGrade domainID).out.Status.Code = "1")
    (horder : (GetRecordLine.call c domainGrade domainID).out.LineIDs.Perm m)
    (htext : ∀ kv ∈ m, kv.1 ≠ "默认" → kv.2.isText = true) :
    (GetRecordLine c domainGrade domainID).1.Perm (m.map expectedLine) ∧
    (GetRecordLine c domainGrade domainID).1.length = m.length ∧
    (GetRecordLine c domainGrade domainID).2.2 = none ∧
    (m = [("国内", JsonValue.str "7=0"), ("默认", JsonValue.num 0)] →
      (GetRecordLine c domainGrade domainID).1.Perm
        [{ Line := "国内", LineID := "7=0" }, { Line := "默认", LineID := "0" }]) := by
  rw [GetRecordLine_success c domainGrade domainID herr hcode]
  have hmap : m.map GetRecordLine.entry = m.map expectedLine :=
    List.map_congr_left fun kv hkv => GetRecordLine.entry_eq_expected kv (htext kv hkv)
  have hperm : ((GetRecordLine.call c domainGrade domainID).out.LineIDs.map
      GetRecordLine.entry).Perm (m.map expectedLine) := hmap ▸ horder.map _
  refine ⟨hperm, ?_, rfl, fun hm => ?_⟩
  · simpa using hperm.length_eq
  · subst hm
    simpa [expectedLine] using hperm

/-- Witness of C2: the response of the test, its two entries visited with "默认" first. -/
theorem GetRecordLine_one_line_per_key_witness :
    (GetRecordLine (exampleClient none okStatus {} []
        [("默认", JsonValue.num 0), ("国内", JsonValue.str "7=0")]) "DP_Free" "1").1.Perm
      [{ Line := "国内", LineID := "7=0" }, { Line := "默认", LineID := "0" }] ∧
    (GetRecordLine (exampleClient none okStatus {} []
        [("默认", JsonValue.num 0), ("国内", JsonValue.str "7=0")]) "DP_Free" "1").1.length = 2 :=
  ⟨(GetRecordLine_one_line_per_key (exampleClient none okStatus {} []
        [("默认", JsonValue.num 0), ("国内", JsonValue.str "7=0")]) "DP_Free" "1"
      [("国内", JsonValue.str "7=0"), ("默认", JsonValue.num 0)] rfl rfl
      (List.Perm.swap _ _ _) (by simp [JsonValue.isText])).2.2.2 rfl,
    (GetRecordLine_one_line_per_key (exampleClient none okStatus {} []
        [("默认", JsonValue.num 0), ("国内", JsonValue.str "7=0")]) "DP_Free" "1"
      [("国内", JsonValue.str "7=0"), ("默认", JsonValue.num 0)] rfl rfl
      (List.Perm.swap _ _ _) (by simp [JsonValue.isText])).2.1⟩

/-- Counterexample to C3: for the map with the single entry "foo": 3 a successful
GetRecordLine returns the one line ("foo", ""), so the result is not empty and has a line
named "foo". -/
theorem GetRecordLine_foo_not_dropped :
    (GetRecordLine (exampleClient none okStatus {} [] [("foo", JsonValue.num 3)])
        "DP_Free" "1").1 = [{ Line := "foo", LineID := "" }] ∧
    (GetRecordLine (exampleClient none okStatus {} [] [("foo", JsonValue.num 3)])
        "DP_Free" "1").1 ≠ [] ∧
    ∃ l ∈ (GetRecordLine (exampleClient none okStatus {} [] [("foo", JsonValue.num 3)])
        "DP_Free" "1").1, l.Line = "foo" := by
  have h : (GetRecordLine (exampleClient none okStatus {} [] [("foo", JsonValue.num 3)])
      "DP_Free" "1").1 = [{ Line := "foo", LineID := "" }] := by
    rw [GetRecordLine_success (exampleClient none okStatus {} [] [("foo", JsonValue.num 3)])
      "DP_Free" "1" rfl rfl]
    simp [exampleClient, GetRecordLine.call, GetRecordLine.entry]
  rw [h]
  simp

/-- C3, amended: an entry of the line_ids map whose value is not text and whose key is not
"默认" is kept by a successful GetRecordLine with the empty identifier: the result has the
line `(key, "")`, and it has as many lines as the map has entries. -/
theorem GetRecordLine_non_text_kept (c : Client Resp DomainInfo)
    (domainGrade domainID : String) (kv : String × JsonValue)
    (herr : (GetRecordLine.call c domainGrade domainID).err = none)
    (hcode : (GetRecordLine.call c domainGrade domainID).out.Status.Code = "1")
    (hmem : kv ∈ (GetRecordLine.call c domainGrade domainID).out.LineIDs)
    (hval : kv.2.isText = false) (hkey : kv.1 ≠ "默认") :
    { Line := kv.1, LineID := "" } ∈ (GetRecordLine c domainGrade domainID).1 ∧
    (GetRecordLine c domainGrade domainID).1.length =
      (GetRecordLine.call c domainGrade domainID).out.LineIDs.length := by
  rw [GetRecordLine_success c domainGrade domainID herr hcode]
  refine ⟨List.mem_map.2 ⟨kv, hmem, ?_⟩, by simp⟩
  obtain ⟨k, v⟩ := kv
  cases v <;> simp_all [GetRecordLine.entry, JsonValue.isText]

/-- Witness of C3, amended: the map with the single entry "foo": 3. -/
theorem GetRecordLine_non_text_kept_witness :
    ({ Line := "foo", LineID := "" } : RecordLine) ∈
      (GetRecordLine (exampleClient none okStatus {} [] [("foo", JsonValue.num 3)])
        "DP_Free" "1").1 ∧
    (GetRecordLine (exampleClient none okStatus {} [] [("foo", JsonValue.num 3)])
        "DP_Free" "1").1.length = 1 :=
  GetRecordLine_non_text_kept (exampleClient none okStatus {} [] [("foo", JsonValue.num 3)])
    "DP_Free" "1" ("foo", JsonValue.num 3) rfl rfl (List.mem_singleton.2 rfl) rfl
    (by decide)

/-! ## Status check and error propagation -/

theorem ContainsText.lead (lead msg : String) : ContainsText (lead ++ msg) msg :=
  ⟨lead, "", by simp⟩

theorem StatusVerdict.intro (lead : String) (status : Status) (err : Option GoError)
    (hbad : status.Code ≠ "1" → err = some (Errorf lead status.Message))
    (hok : status.Code = "1" → err = none) : StatusVerdict lead status err := by
  by_cases h : status.Code = "1"
  · simp [StatusVerdict, hok h, h]
  · refine ⟨by simp [hbad h, h], fun e he => ?_⟩
    rw [hbad h] at he
    cases he
    exact ⟨rfl, ContainsText.lead _ _⟩

/-- C4: for each of the eight operations, when the transport call returned no error, the
operation returns an error if and only if the decoded status code is not "1" (the empty code
of an absent status included), and the text of that error is the fixed lead of the
operation followed by the provider message, so it contains the message. -/
theorem status_error_iff_code_not_one (c : Client Resp DomainInfo) :
    (∀ query, (ListRecords.call c query).err = none →
      StatusVerdict "Could not get domains: " (ListRecords.call c query).out.Status
        (ListRecords c query).2.2) ∧
    (∀ domain attrs, (CreateRecord.call c domain attrs).err = none →
      StatusVerdict "Could not get domains: " (CreateRecord.call c domain attrs).out.Status
        (CreateRecord c domain attrs).2.2) ∧
    (∀ domain recordID, (GetRecord.call c domain recordID).err = none →
      StatusVerdict "Could not get domains: " (GetRecord.call c domain recordID).out.Status
        (GetRecord c domain recordID).2.2) ∧
    (∀ domain recordID attrs, (UpdateRecord.call c domain recordID attrs).err = none →
      StatusVerdict "Could not get domains: "
        (UpdateRecord.call c domain recordID attrs).out.Status
        (UpdateRecord c domain recordID attrs).2.2) ∧
    (∀ domain recordID, (DeleteRecord.call c domain recordID).err = none →
      StatusVerdict "could not delete record: " (DeleteRecord.call c domain recordID).out.Status
        (DeleteRecord c domain recordID).2) ∧
    (∀ domainID recordID status,
      (UpdateRecordStatus.call c domainID recordID status).err = none →
      StatusVerdict "could not change record status: "
        (UpdateRecordStatus.call c domainID recordID status).out.Status
        (UpdateRecordStatus c domainID recordID status).2) ∧
    (∀ domainGrade domainID, (GetRecordLine.call c domainGrade domainID).err = none →
      StatusVerdict "could not get record line: "
        (GetRecordLine.call c domainGrade domainID).out.Status
        (GetRecordLine c domainGrade domainID).2.2) ∧
    ((GetUserInfo.call c).err = none →
      StatusVerdict "unexpected error: " (GetUserInfo.call c).out.Status
        (GetUserInfo c).2.2) := by
  refine ⟨?_, ?_, ?_, ?_, ?_, ?_, ?_, ?_⟩
  · intro query herr
    apply StatusVerdict.intro <;> intro h <;> simp [ListRecords, herr, h]
  · intro domain attrs herr
    apply StatusVerdict.intro <;> intro h <;> simp [CreateRecord, herr, h]
  · intro domain recordID herr
    apply StatusVerdict.intro <;> intro h <;> simp [GetRecord, herr, h]
  · intro domain recordID attrs herr
    apply StatusVerdict.intro <;> intro h <;> simp [UpdateRecord, herr, h]
  · intro domain recordID herr
    apply StatusVerdict.intro <;> intro h <;> simp [DeleteRecord, herr, h]
  · intro domainID recordID status herr
    apply StatusVerdict.intro <;> intro h <;> simp [UpdateRecordStatus, herr, h]
  · intro domainGrade domainID herr
    apply StatusVerdict.intro <;> intro h <;> simp [GetRecordLine, herr, h]
  · intro herr
    apply StatusVerdict.intro <;> intro h <;> simp [GetUserInfo, herr, h]

/-- Witness of C4: on the envelope with code "0" and message "bad token", DeleteRecord
returns the error "could not delete record: bad token", and on the successful envelope it
returns no error. -/
theorem status_error_iff_code_not_one_witness :
    (DeleteRecord.call (exampleClient none badToken {} [] []) "44146112" "26954449").err = none ∧
    (DeleteRecord (exampleClient none badToken {} [] []) "44146112" "26954449").2 =
      some ⟨"could not delete record: bad token"⟩ ∧
    StatusVerdict "could not delete record: " badToken
      (DeleteRecord (exampleClient none badToken {} [] []) "44146112" "26954449").2 ∧
    StatusVerdict "could not delete record: " okStatus
      (DeleteRecord (exampleClient none okStatus {} [] []) "44146112" "26954449").2 :=
  ⟨rfl, by decide,
    (status_error_iff_code_not_one (exampleClient none badToken {} [] [])).2.2.2.2.1
      "44146112" "26954449" rfl,
    (status_error_iff_code_not_one (exampleClient none okStatus {} [] [])).2.2.2.2.1
      "44146112" "26954449" rfl⟩

/-- C5 at its failing input: the envelope has code "0" and message "bad token" and its body
carries a record. CreateRecord, GetRecord and UpdateRecord each return the error together
with the decoded record, which is not the zero Record; ListRecords, GetRecordLine and
GetUserInfo return the error with the zero entity on the same envelope. -/
theorem failed_status_returns_decoded_record :
    CreateRecord (exampleClient none badToken { ID := "26954449", Name := "@" } [] [])
        "44146112" { Name := "@" } =
      ({ ID := "26954449", Name := "@" }, none, some ⟨"Could not get domains: bad token"⟩) ∧
    GetRecord (exampleClient none badToken { ID := "26954449", Name := "@" } [] [])
        "44146112" "26954449" =
      ({ ID := "26954449", Name := "@" }, none, some ⟨"Could not get domains: bad token"⟩) ∧
    UpdateRecord (exampleClient none badToken { ID := "26954449", Name := "@" } [] [])
        "44146112" "26954449" { Name := "@" } =
      ({ ID := "26954449", Name := "@" }, none, some ⟨"Could not get domains: bad token"⟩) ∧
    ({ ID := "26954449", Name := "@" } : Record) ≠ {} ∧
    ListRecords (exampleClient none badToken {} [{ ID := "26954449", Name := "@" }] [])
        { DomainID := "44146112" } =
      ({}, none, some ⟨"Could not get domains: bad token"⟩) ∧
    GetRecordLine (exampleClient none badToken {} [] [("国内", JsonValue.str "7=0")])
        "DP_Free" "1" =
      ([], none, some ⟨"could not get record line: bad token"⟩) ∧
    GetUserInfo (exampleClient none badToken {} [] []) =
      ({}, some 200, some ⟨"unexpected error: bad token"⟩) := by
  refine ⟨?_, ?_, ?_, by decide, ?_, ?_, ?_⟩ <;> decide

/-- C6: for each of the eight operations, when the transport call returns an error `e`
with response `r`, the operation returns the zero entity (none for the two operations
without one), `r`, and `e` itself, whatever was decoded. -/
theorem transport_error_passed_through (c : Client Resp DomainInfo) (e : GoError) :
    (∀ query, (ListRecords.call c query).err = some e →
      ListRecords c query = ({}, (ListRecords.call c query).res, some e)) ∧
    (∀ domain attrs, (CreateRecord.call c domain attrs).err = some e →
      CreateRecord c domain attrs = ({}, (CreateRecord.call c domain attrs).res, some e)) ∧
    (∀ domain recordID, (GetRecord.call c domain recordID).err = some e →
      GetRecord c domain recordID = ({}, (GetRecord.call c domain recordID).res, some e)) ∧
    (∀ domain recordID attrs, (UpdateRecord.call c domain recordID attrs).err = some e →
      UpdateRecord c domain recordID attrs =
        ({}, (UpdateRecord.call c domain recordID attrs).res, some e)) ∧
    (∀ domain recordID, (DeleteRecord.call c domain recordID).err = some e →
      DeleteRecord c domain recordID = ((DeleteRecord.call c domain recordID).res, some e)) ∧
    (∀ domainID recordID status,
      (UpdateRecordStatus.call c domainID recordID status).err = some e →
      UpdateRecordStatus c domainID recordID status =
        ((UpdateRecordStatus.call c domainID recordID status).res, some e)) ∧
    (∀ domainGrade domainID, (GetRecordLine.call c domainGrade domainID).err = some e →
      GetRecordLine c domainGrade domainID =
        ([], (GetRecordLine.call c domainGrade domainID).res, some e)) ∧
    ((GetUserInfo.call c).err = some e →
      GetUserInfo c = ({}, (GetUserInfo.call c).res, some e)) := by
  refine ⟨?_, ?_, ?_, ?_, ?_, ?_, ?_, ?_⟩
  · intro query herr
    simp [ListRecords, herr]
  · intro domain attrs herr
    simp [CreateRecord, herr]
  · intro domain recordID herr
    simp [GetRecord, herr]
  · intro domain recordID attrs herr
    simp [UpdateRecord, herr]
  · intro domain recordID herr
    simp [DeleteRecord, herr]
  · intro domainID recordID status herr
    simp [UpdateRecordStatus, herr]
  · intro domainGrade domainID herr
    simp [GetRecordLine, herr]
  · intro herr
    simp [GetUserInfo, herr]

/-- Witness of C6: the transport fails with "400 InvalID request" although the decoded
target holds a successful status and a record; DeleteRecord and GetRecord hand the error
on unchanged, GetRecord with the zero Record. -/
theorem transport_error_passed_through_witness :
    (DeleteRecord.call (exampleClient (some ⟨"400 InvalID request"⟩) okStatus
        { ID := "26954449" } [] []) "44146112" "26954449").err =
      some ⟨"400 InvalID request"⟩ ∧
    DeleteRecord (exampleClient (some ⟨"400 InvalID request"⟩) okStatus
        { ID := "26954449" } [] []) "44146112" "26954449" =
      (some 200, some ⟨"400 InvalID request"⟩) ∧
    GetRecord (exampleClient (some ⟨"400 InvalID request"⟩) okStatus
        { ID := "26954449" } [] []) "44146112" "26954449" =
      ({}, some 200, some ⟨"400 InvalID request"⟩) :=
  ⟨rfl,
    (transport_error_passed_through (exampleClient (some ⟨"400 InvalID request"⟩) okStatus
        { ID := "26954449" } [] []) ⟨"400 InvalID request"⟩).2.2.2.2.1
      "44146112" "26954449" rfl,
    (transport_error_passed_through (exampleClient (some ⟨"400 InvalID request"⟩) okStatus
        { ID := "26954449" } [] []) ⟨"400 InvalID request"⟩).2.2.1
      "44146112" "26954449" rfl⟩

/-! ## Request encoding -/

theorem Values.ite_Add_apply (p : Values) (key f k : String) :
    (if f ≠ "" then p.Add key f else p) k =
      if k = key then (if f ≠ "" then some ((p key).getD [] ++ [f]) else p key) else p k := by
  by_cases hf : f = "" <;> by_cases hk : k = key <;> simp [Values.Add, hf, hk]

theorem Values.Add_apply_of_ne (p : Values) (key value k : String) (h : k ≠ key) :
    (p.Add key value) k = p k := by
  simp [Values.Add, h]

theorem CarriesIff.of_eq (p : Values) (key f : String)
    (h : p key = if f ≠ "" then some [f] else none) : CarriesIff p key f := by
  by_cases hf : f = "" <;> simp [CarriesIff, Values.Has, h, hf]

theorem addRecordAttributes_carries (p : Values) (r : Record)
    (hbase : ∀ k ∈ recordKeys, ¬ p.Has k) :
    CarriesIff (addRecordAttributes p r) "sub_domain" r.Name ∧
    CarriesIff (addRecordAttributes p r) "record_type" r.Type_ ∧
    CarriesIff (addRecordAttributes p r) "record_line" r.Line ∧
    CarriesIff (addRecordAttributes p r) "record_line_id" r.LineID ∧
    CarriesIff (addRecordAttributes p r) "value" r.Value ∧
    CarriesIff (addRecordAttributes p r) "mx" r.MX ∧
    CarriesIff (addRecordAttributes p r) "ttl" r.TTL ∧
    CarriesIff (addRecordAttributes p r) "status" r.Status := by
  simp only [recordKeys, Values.Has, List.mem_cons, List.mem_singleton, forall_eq_or_imp,
    forall_eq, ne_eq, not_not, List.not_mem_nil, false_implies, implies_true, and_true] at hbase
  obtain ⟨h1, h2, h3, h4, h5, h6, h7, h8⟩ := hbase
  refine ⟨?_, ?_, ?_, ?_, ?_, ?_, ?_, ?_⟩ <;> apply CarriesIff.of_eq <;>
    simp only [addRecordAttributes, Values.ite_Add_apply, String.reduceEq, ↓reduceIte,
      h1, h2, h3, h4, h5, h6, h7, h8, Option.getD_none, List.nil_append]

theorem recordKeys_absent_after_Add (p : Values) (key value : String)
    (hkey : key ∉ recordKeys) (hbase : ∀ k ∈ recordKeys, ¬ p.Has k) :
    ∀ k ∈ recordKeys, ¬ (p.Add key value).Has k := by
  intro k hk
  have hne : k ≠ key := fun h => hkey (h ▸ hk)
  simpa [Values.Has, Values.Add_apply_of_ne p key value k hne] using hbase k hk

/-- C7: when the common-parameter base has none of the eight record keys, the payload of
CreateRecord and the payload of UpdateRecord contain each of sub_domain, record_type,
record_line, record_line_id, value, mx, ttl, status if and only if the field Name, Type,
Line, LineID, Value, MX, TTL, Status of the attributes is non-empty, and the key then
carries exactly the value of the field. -/
theorem record_attributes_encoded (c : Client Resp DomainInfo) (domain recordID : String)
    (r : Record) (payload : Values)
    (hbase : ∀ k ∈ recordKeys, ¬ c.newPayLoad.Has k)
    (hpayload : payload = CreateRecord.payload c domain r ∨
      payload = UpdateRecord.payload c domain recordID r) :
    CarriesIff payload "sub_domain" r.Name ∧
    CarriesIff payload "record_type" r.Type_ ∧
    CarriesIff payload "record_line" r.Line ∧
    CarriesIff payload "record_line_id" r.LineID ∧
    CarriesIff payload "value" r.Value ∧
    CarriesIff payload "mx" r.MX ∧
    CarriesIff payload "ttl" r.TTL ∧
    CarriesIff payload "status" r.Status := by
  have h1 := recordKeys_absent_after_Add c.newPayLoad "domain_id" domain (by decide) hbase
  rcases hpayload with h | h <;> subst h
  · exact addRecordAttributes_carries _ r h1
  · exact addRecordAttributes_carries _ r
      (recordKeys_absent_after_Add _ "record_id" recordID (by decide) h1)

/-- Witness of C7: the attributes of the CreateRecord test, Name "@" and Status "enable":
sub_domain and status carry them, record_type and ttl are absent. -/
theorem record_attributes_encoded_witness :
    (CreateRecord.payload (exampleClient none okStatus {} [] []) "44146112"
        { Name := "@", Status := "enable" }) "sub_domain" = some ["@"] ∧
    (CreateRecord.payload (exampleClient none okStatus {} [] []) "44146112"
        { Name := "@", Status := "enable" }) "status" = some ["enable"] ∧
    ¬ (CreateRecord.payload (exampleClient none okStatus {} [] []) "44146112"
        { Name := "@", Status := "enable" }).Has "record_type" ∧
    ¬ (CreateRecord.payload (exampleClient none okStatus {} [] []) "44146112"
        { Name := "@", Status := "enable" }).Has "ttl" :=
  have h := record_attributes_encoded (exampleClient none okStatus {} [] []) "44146112" ""
    { Name := "@", Status := "enable" } _ (by decide) (Or.inl rfl)
  ⟨h.1.2 (by decide), h.2.2.2.2.2.2.2.2 (by decide),
    fun hh => h.2.1.1.1 hh rfl, fun hh => h.2.2.2.2.2.2.1.1.1 hh rfl⟩

/-- Counterexample to C8: with PageSize 10 and CurrentPage left at 0, over an empty base,
the payload of ListRecords has the key offset, carrying "0". -/
theorem ListRecords_offset_present_for_page_zero :
    ({ DomainID := "13123213", PageSize := 10 } : RecordQuery).CurrentPage = 0 ∧
    (∀ k ∈ queryKeys, ¬ (exampleClient none okStatus {} [] []).newPayLoad.Has k) ∧
    (ListRecords.payload (exampleClient none okStatus {} [] [])
        { DomainID := "13123213", PageSize := 10 }).Has "offset" ∧
    (ListRecords.payload (exampleClient none okStatus {} [] [])
        { DomainID := "13123213", PageSize := 10 }) "offset" = some ["0"] := by
  refine ⟨rfl, by decide, by decide, by decide⟩

theorem Values.Add_apply (p : Values) (key value k : String) :
    (p.Add key value) k = if k = key then some ((p key).getD [] ++ [value]) else p k := rfl

theorem Values.ite_Add_Add_apply (p : Values) (cond : Prop) [Decidable cond]
    (key1 value1 key2 value2 k : String) :
    (if cond then (p.Add key1 value1).Add key2 value2 else p) k =
      if cond then ((p.Add key1 value1).Add key2 value2) k else p k := by
  split_ifs <;> rfl

theorem ListRecords.payload_apply (c : Client Resp DomainInfo) (q : RecordQuery)
    (hbase : ∀ k ∈ queryKeys, ¬ c.newPayLoad.Has k) :
    (ListRecords.payload c q "domain_id" = if q.DomainID ≠ "" then some [q.DomainID] else none) ∧
    (ListRecords.payload c q "domain" = if q.Domain ≠ "" then some [q.Domain] else none) ∧
    (ListRecords.payload c q "offset" =
      if q.PageSize ≠ 0 then some [toString q.CurrentPage] else none) ∧
    (ListRecords.payload c q "length" =
      if q.PageSize ≠ 0 then some [toString q.PageSize] else none) ∧
    (ListRecords.payload c q "sub_domain" =
      if q.SubDomain ≠ "" then some [q.SubDomain] else none) ∧
    (ListRecords.payload c q "keyword" = if q.Keyword ≠ "" then some [q.Keyword] else none) := by
  simp only [queryKeys, Values.Has, List.mem_cons, List.mem_singleton, forall_eq_or_imp,
    forall_eq, ne_eq, not_not, List.not_mem_nil, false_implies, implies_true, and_true] at hbase
  obtain ⟨h1, h2, h3, h4, h5, h6⟩ := hbase
  refine ⟨?_, ?_, ?_, ?_, ?_, ?_⟩ <;>
    simp only [ListRecords.payload, Values.ite_Add_apply, Values.ite_Add_Add_apply,
      Values.Add_apply, String.reduceEq, ↓reduceIte, h1, h2, h3, h4, h5, h6, Option.getD_none,
      List.nil_append, ite_self]

/-- C8, amended: when the common-parameter base has none of the six query keys, the payload
of ListRecords lacks domain_id, domain, sub_domain, keyword when DomainID, Domain,
SubDomain, Keyword is empty, and lacks both offset and length when PageSize is 0; when
PageSize is not 0 both are present, offset carrying the decimal text of CurrentPage
(also for CurrentPage 0) and length that of PageSize. -/
theorem ListRecords_zero_fields_absent (c : Client Resp DomainInfo) (q : RecordQuery)
    (hbase : ∀ k ∈ queryKeys, ¬ c.newPayLoad.Has k) :
    (q.DomainID = "" → ¬ (ListRecords.payload c q).Has "domain_id") ∧
    (q.Domain = "" → ¬ (ListRecords.payload c q).Has "domain") ∧
    (q.PageSize = 0 →
      ¬ (ListRecords.payload c q).Has "offset" ∧ ¬ (ListRecords.payload c q).Has "length") ∧
    (q.PageSize ≠ 0 →
      ListRecords.payload c q "offset" = some [toString q.CurrentPage] ∧
      ListRecords.payload c q "length" = some [toString q.PageSize]) ∧
    (q.SubDomain = "" → ¬ (ListRecords.payload c q).Has "sub_domain") ∧
    (q.Keyword = "" → ¬ (ListRecords.payload c q).Has "keyword") := by
  obtain ⟨e1, e2, e3, e4, e5, e6⟩ := ListRecords.payload_apply c q hbase
  refine ⟨?_, ?_, ?_, ?_, ?_, ?_⟩ <;> intro h <;> simp [Values.Has, e1, e2, e3, e4, e5, e6, h]

/-- Witness of C8, amended: the query of the ListRecords test has no paging, so neither
offset nor length is sent; with PageSize 10 and CurrentPage 0 offset is sent as "0". -/
theorem ListRecords_zero_fields_absent_witness :
    (¬ (ListRecords.payload (exampleClient none okStatus {} [] [])
        { DomainID := "13123213", SubDomain := "a" }).Has "offset" ∧
      ¬ (ListRecords.payload (exampleClient none okStatus {} [] [])
        { DomainID := "13123213", SubDomain := "a" }).Has "length") ∧
    ¬ (ListRecords.payload (exampleClient none okStatus {} [] [])
        { DomainID := "13123213", SubDomain := "a" }).Has "keyword" :=
  ⟨(ListRecords_zero_fields_absent (exampleClient none okStatus {} [] [])
      { DomainID := "13123213", SubDomain := "a" } (by decide)).2.2.1 rfl,
    (ListRecords_zero_fields_absent (exampleClient none okStatus {} [] [])
      { DomainID := "13123213", SubDomain := "a" } (by decide)).2.2.2.2.2 rfl⟩

/-! ## The list of ListRecords -/

/-- C9: after a transport call without error and with status code "1", ListRecords returns
the wrapper with the CurrentPage and PageSize of the query, the decoded info.record_total
as Total and the decoded records as List: the same list, so the same length, order and
duplicates, every element as decoded, its Name, Type, Line and LineID included. -/
theorem ListRecords_returns_decoded_list (c : Client Resp DomainInfo) (q : RecordQuery)
    (herr : (ListRecords.call c q).err = none)
    (hcode : (ListRecords.call c q).out.Status.Code = "1") :
    (ListRecords c q).1.CurrentPage = q.CurrentPage ∧
    (ListRecords c q).1.PageSize = q.PageSize ∧
    (ListRecords c q).1.Total = (ListRecords.call c q).out.Info.RecordTotal ∧
    (ListRecords c q).1.List = (ListRecords.call c q).out.Records ∧
    (ListRecords c q).1.List.length = (ListRecords.call c q).out.Records.length ∧
    (∀ i, (ListRecords c q).1.List.get? i = (ListRecords.call c q).out.Records.get? i) ∧
    (ListRecords c q).2.1 = (ListRecords.call c q).res ∧
    (ListRecords c q).2.2 = none := by
  simp [ListRecords, herr, hcode]

/-- Witness of C9: two equal records that carry only aliases come back as they were
decoded, both of them, with the paging of the query and the decoded total. -/
theorem ListRecords_returns_decoded_list_witness :
    (ListRecords (exampleClient none okStatus {}
        [{ ID := "44146112", SubDomain := "yizerowwwww", RecordType := "A" },
         { ID := "44146112", SubDomain := "yizerowwwww", RecordType := "A" }] [])
        { DomainID := "13123213", CurrentPage := 3, PageSize := 20 }).1.CurrentPage = 3 ∧
    (ListRecords (exampleClient none okStatus {}
        [{ ID := "44146112", SubDomain := "yizerowwwww", RecordType := "A" },
         { ID := "44146112", SubDomain := "yizerowwwww", RecordType := "A" }] [])
        { DomainID := "13123213", CurrentPage := 3, PageSize := 20 }).1.PageSize = 20 ∧
    (ListRecords (exampleClient none okStatus {}
        [{ ID := "44146112", SubDomain := "yizerowwwww", RecordType := "A" },
         { ID := "44146112", SubDomain := "yizerowwwww", RecordType := "A" }] [])
        { DomainID := "13123213", CurrentPage := 3, PageSize := 20 }).1.Total = 2 ∧
    (ListRecords (exampleClient none okStatus {}
        [{ ID := "44146112", SubDomain := "yizerowwwww", RecordType := "A" },
         { ID := "44146112", SubDomain := "yizerowwwww", RecordType := "A" }] [])
        { DomainID := "13123213", CurrentPage := 3, PageSize := 20 }).1.List =
      [{ ID := "44146112", SubDomain := "yizerowwwww", RecordType := "A" },
        { ID := "44146112", SubDomain := "yizerowwwww", RecordType := "A" }] :=
  have h := ListRecords_returns_decoded_list (exampleClient none okStatus {}
        [{ ID := "44146112", SubDomain := "yizerowwwww", RecordType := "A" },
         { ID := "44146112", SubDomain := "yizerowwwww", RecordType := "A" }] [])
        { DomainID := "13123213", CurrentPage := 3, PageSize := 20 } rfl rfl
  ⟨h.1, h.2.1, h.2.2.1, h.2.2.2.1⟩

/-! ## Round trip through the form and the alias pass -/

theorem normalize_other_fields (d : Record) :
    (normalize d).Value = d.Value ∧ (normalize d).MX = d.MX ∧ (normalize d).TTL = d.TTL ∧
    (normalize d).Status = d.Status := by
  unfold normalize
  refine ⟨?_, ?_, ?_, ?_⟩ <;> simp only [] <;> split_ifs <;> rfl

theorem Values.Get_of_carries (p : Values) (key f : String) (h : CarriesIff p key f)
    (hf : f ≠ "") : p.Get key = f := by
  simp [Values.Get, h.2 hf]

theorem echoRecord_addRecordAttributes (p : Values) (r : Record)
    (hbase : ∀ k ∈ recordKeys, ¬ p.Has k)
    (hName : r.Name ≠ "") (hType : r.Type_ ≠ "") (hLine : r.Line ≠ "")
    (hLineID : r.LineID ≠ "") (hValue : r.Value ≠ "") (hMX : r.MX ≠ "") (hTTL : r.TTL ≠ "")
    (hStatus : r.Status ≠ "") :
    echoRecord (addRecordAttributes p r) =
      { SubDomain := r.Name, RecordType := r.Type_, RecordLine := r.Line,
        RecordLineID := r.LineID, Value := r.Value, MX := r.MX, TTL := r.TTL,
        Status := r.Status } := by
  obtain ⟨c1, c2, c3, c4, c5, c6, c7, c8⟩ := addRecordAttributes_carries p r hbase
  simp only [echoRecord, Values.Get_of_carries _ _ _ c1 hName,
    Values.Get_of_carries _ _ _ c2 hType, Values.Get_of_carries _ _ _ c3 hLine,
    Values.Get_of_carries _ _ _ c4 hLineID, Values.Get_of_carries _ _ _ c5 hValue,
    Values.Get_of_carries _ _ _ c6 hMX, Values.Get_of_carries _ _ _ c7 hTTL,
    Values.Get_of_carries _ _ _ c8 hStatus]

/-- C10: let the record have Name, Type, Line, LineID, Value, MX, TTL and Status all
non-empty, let `form` be the payload CreateRecord or UpdateRecord encodes for it over a
base without the eight record keys, and let a successful Record.Info response decode to
the echo of that form under the same keys. Then the record GetRecord returns has the Name,
Type, Line, LineID, Value, MX, TTL and Status of the original. -/
theorem record_round_trip (c : Client Resp DomainInfo)
    (domain recordID infoDomain infoID : String) (r : Record) (form : Values)
    (hbase : ∀ k ∈ recordKeys, ¬ c.newPayLoad.Has k)
    (hform : form = CreateRecord.payload c domain r ∨
      form = UpdateRecord.payload c domain recordID r)
    (hName : r.Name ≠ "") (hType : r.Type_ ≠ "") (hLine : r.Line ≠ "")
    (hLineID : r.LineID ≠ "") (hValue : r.Value ≠ "") (hMX : r.MX ≠ "") (hTTL : r.TTL ≠ "")
    (hStatus : r.Status ≠ "")
    (herr : (GetRecord.call c infoDomain infoID).err = none)
    (hcode : (GetRecord.call c infoDomain infoID).out.Status.Code = "1")
    (hecho : (GetRecord.call c infoDomain infoID).out.Record = echoRecord form) :
    (GetRecord c infoDomain infoID).1.Name = r.Name ∧
    (GetRecord c infoDomain infoID).1.Type_ = r.Type_ ∧
    (GetRecord c infoDomain infoID).1.Line = r.Line ∧
    (GetRecord c infoDomain infoID).1.LineID = r.LineID ∧
    (GetRecord c infoDomain infoID).1.Value = r.Value ∧
    (GetRecord c infoDomain infoID).1.MX = r.MX ∧
    (GetRecord c infoDomain infoID).1.TTL = r.TTL ∧
    (GetRecord c infoDomain infoID).1.Status = r.Status := by
  have h1 := recordKeys_absent_after_Add c.newPayLoad "domain_id" domain (by decide) hbase
  have h2 := recordKeys_absent_after_Add _ "record_id" recordID (by decide) h1
  have hrec : (GetRecord.call c infoDomain infoID).out.Record =
      { SubDomain := r.Name, RecordType := r.Type_, RecordLine := r.Line,
        RecordLineID := r.LineID, Value := r.Value, MX := r.MX, TTL := r.TTL,
        Status := r.Status } := by
    rw [hecho]
    rcases hform with h | h <;> subst h
    · exact echoRecord_addRecordAttributes _ r h1 hName hType hLine hLineID hValue hMX hTTL
        hStatus
    · exact echoRecord_addRecordAttributes _ r h2 hName hType hLine hLineID hValue hMX hTTL
        hStatus
  rw [GetRecord_success c infoDomain infoID herr hcode, hrec]
  obtain ⟨t, l, i, n⟩ := normalize_fields
    { SubDomain := r.Name, RecordType := r.Type_, RecordLine := r.Line,
      RecordLineID := r.LineID, Value := r.Value, MX := r.MX, TTL := r.TTL,
      Status := r.Status }
  obtain ⟨v, m, tt, st⟩ := normalize_other_fields
    { SubDomain := r.Name, RecordType := r.Type_, RecordLine := r.Line,
      RecordLineID := r.LineID, Value := r.Value, MX := r.MX, TTL := r.TTL,
      Status := r.Status }
  simp only [] at t l i n v m tt st ⊢
  rw [t, l, i, n, v, m, tt, st]
  exact ⟨firstNonEmpty_empty_left _, firstNonEmpty_empty_left _, firstNonEmpty_empty_left _,
    firstNonEmpty_empty_left _, rfl, rfl, rfl, rfl⟩

/-- Witness of C10: the record with all eight fields set, echoed by the server. -/
theorem record_round_trip_witness :
    (GetRecord.call echoClient "44146112" "26954449").out.Record =
      echoRecord (CreateRecord.payload echoClient "44146112" fullRecord) ∧
    (GetRecord.call echoClient "44146112" "26954449").out.Record.Name = "" ∧
    (GetRecord echoClient "44146112" "26954449").1.Name = "www" ∧
    (GetRecord echoClient "44146112" "26954449").1.Type_ = "MX" ∧
    (GetRecord echoClient "44146112" "26954449").1.Line = "默认" ∧
    (GetRecord echoClient "44146112" "26954449").1.LineID = "0" ∧
    (GetRecord echoClient "44146112" "26954449").1.Value = "mail.example.com." ∧
    (GetRecord echoClient "44146112" "26954449").1.MX = "10" ∧
    (GetRecord echoClient "44146112" "26954449").1.TTL = "600" ∧
    (GetRecord echoClient "44146112" "26954449").1.Status = "enable" :=
  ⟨rfl, rfl,
    record_round_trip echoClient "44146112" "" "44146112" "26954449" fullRecord
      (CreateRecord.payload echoClient "44146112" fullRecord) (by decide) (Or.inl rfl)
      (by decide) (by decide) (by decide) (by decide) (by decide) (by decide) (by decide)
      (by decide) rfl rfl rfl⟩

/-! ## The alias pass as a function on records -/

theorem Record.ext_fields (a b : Record) (h1 : a.ID = b.ID) (h2 : a.Name = b.Name)
    (h3 : a.Line = b.Line) (h4 : a.LineID = b.LineID) (h5 : a.Type_ = b.Type_)
    (h6 : a.TTL = b.TTL) (h7 : a.Value = b.Value) (h8 : a.MX = b.MX)
    (h9 : a.Enabled = b.Enabled) (h10 : a.Status = b.Status)
    (h11 : a.MonitorStatus = b.MonitorStatus) (h12 : a.Remark = b.Remark)
    (h13 : a.UpdateOn = b.UpdateOn) (h14 : a.UseAQB = b.UseAQB)
    (h15 : a.SubDomain = b.SubDomain) (h16 : a.RecordType = b.RecordType)
    (h17 : a.RecordLine = b.RecordLine) (h18 : a.RecordLineID = b.RecordLineID) : a = b := by
  cases a
  cases b
  cases h1; cases h2; cases h3; cases h4; cases h5; cases h6; cases h7; cases h8; cases h9
  cases h10; cases h11; cases h12; cases h13; cases h14; cases h15; cases h16; cases h17
  cases h18
  rfl

theorem normalize_alias_fields (d : Record) :
    (normalize d).SubDomain = d.SubDomain ∧ (normalize d).RecordType = d.RecordType ∧
    (normalize d).RecordLine = d.RecordLine ∧
    (normalize d).RecordLineID = d.RecordLineID := by
  unfold normalize
  refine ⟨?_, ?_, ?_, ?_⟩ <;> simp only [] <;> split_ifs <;> rfl

theorem normalize_id_fields (d : Record) :
    (normalize d).ID = d.ID ∧ (normalize d).Enabled = d.Enabled ∧
    (normalize d).MonitorStatus = d.MonitorStatus := by
  unfold normalize
  refine ⟨?_, ?_, ?_⟩ <;> simp only [] <;> split_ifs <;> rfl

theorem normalize_note_fields (d : Record) :
    (normalize d).Remark = d.Remark ∧ (normalize d).UpdateOn = d.UpdateOn ∧
    (normalize d).UseAQB = d.UseAQB := by
  unfold normalize
  refine ⟨?_, ?_, ?_⟩ <;> simp only [] <;> split_ifs <;> rfl

theorem normalize_eq (d : Record) :
    normalize d =
      { d with
        Type_ := firstNonEmpty d.Type_ d.RecordType
        Line := firstNonEmpty d.Line d.RecordLine
        LineID := firstNonEmpty d.LineID d.RecordLineID
        Name := firstNonEmpty d.Name d.SubDomain } := by
  obtain ⟨t, l, i, n⟩ := normalize_fields d
  obtain ⟨v, m, tt, st⟩ := normalize_other_fields d
  obtain ⟨a1, a2, a3, a4⟩ := normalize_alias_fields d
  obtain ⟨i1, i2, i3⟩ := normalize_id_fields d
  obtain ⟨n1, n2, n3⟩ := normalize_note_fields d
  exact Record.ext_fields _ _ i1 n l i t tt v m i2 st i3 n1 n2 n3 a1 a2 a3 a4

theorem firstNonEmpty_idem (a b : String) :
    firstNonEmpty (firstNonEmpty a b) b = firstNonEmpty a b := by
  unfold firstNonEmpty
  by_cases ha : a = "" <;> by_cases hb : b = "" <;> simp [ha, hb]

theorem firstNonEmpty_of_ne (a b : String) (h : a ≠ "") : firstNonEmpty a b = a := by
  simp [firstNonEmpty, h]

theorem firstNonEmpty_cases (a b : String) :
    firstNonEmpty a b = a ∨ firstNonEmpty a b = b := by
  unfold firstNonEmpty
  by_cases ha : a = "" <;> by_cases hb : b = "" <;> simp [ha, hb]

/-- C11: the alias pass of GetRecord is idempotent, `normalize (normalize r) = normalize r`
for every record, and it leaves a record unchanged when its Type, Line, LineID and Name
are all non-empty. -/
theorem normalize_idempotent :
    (∀ r : Record, normalize (normalize r) = normalize r) ∧
    (∀ r : Record, r.Type_ ≠ "" → r.Line ≠ "" → r.LineID ≠ "" → r.Name ≠ "" →
      normalize r = r) := by
  refine ⟨fun r => ?_, fun r ht hl hi hn => ?_⟩
  · rw [normalize_eq (normalize r), normalize_eq r]
    simp only [firstNonEmpty_idem]
  · rw [normalize_eq r, firstNonEmpty_of_ne _ _ ht, firstNonEmpty_of_ne _ _ hl,
      firstNonEmpty_of_ne _ _ hi, firstNonEmpty_of_ne _ _ hn]

/-- Witness of C11: a record with the four primaries set and four different aliases is
left as it is, and a record with only aliases is normalized once and for all. -/
theorem normalize_idempotent_witness :
    normalize
        { Name := "@", Type_ := "A", Line := "默认", LineID := "0", SubDomain := "www",
          RecordType := "MX", RecordLine := "国内", RecordLineID := "7=0" } =
      { Name := "@", Type_ := "A", Line := "默认", LineID := "0", SubDomain := "www",
        RecordType := "MX", RecordLine := "国内", RecordLineID := "7=0" } ∧
    normalize (normalize { SubDomain := "www", RecordType := "MX" }) =
      normalize { SubDomain := "www", RecordType := "MX" } :=
  ⟨normalize_idempotent.2
      { Name := "@", Type_ := "A", Line := "默认", LineID := "0", SubDomain := "www",
        RecordType := "MX", RecordLine := "国内", RecordLineID := "7=0" }
      (by decide) (by decide) (by decide) (by decide),
    normalize_idempotent.1 { SubDomain := "www", RecordType := "MX" }⟩

/-! ## What GetRecord leaves untouched -/

/-- C13: after a transport call without error and with status code "1", the record
GetRecord returns has the SubDomain, RecordType, RecordLine, RecordLineID, ID, TTL, Value,
MX, Enabled, Status, MonitorStatus, Remark, UpdateOn and UseAQB of the decoded record, and
each of its Name, Type, Line, LineID is either the decoded primary or the decoded alias. -/
theorem GetRecord_changes_only_canonical_fields (c : Client Resp DomainInfo)
    (domain recordID : String)
    (herr : (GetRecord.call c domain recordID).err = none)
    (hcode : (GetRecord.call c domain recordID).out.Status.Code = "1") :
    (GetRecord c domain recordID).1.SubDomain = (GetRecord.call c domain recordID).out.Record.SubDomain ∧
    (GetRecord c domain recordID).1.RecordType = (GetRecord.call c domain recordID).out.Record.RecordType ∧
    (GetRecord c domain recordID).1.RecordLine = (GetRecord.call c domain recordID).out.Record.RecordLine ∧
    (GetRecord c domain recordID).1.RecordLineID = (GetRecord.call c domain recordID).out.Record.RecordLineID ∧
    (GetRecord c domain recordID).1.ID = (GetRecord.call c domain recordID).out.Record.ID ∧
    (GetRecord c domain recordID).1.TTL = (GetRecord.call c domain recordID).out.Record.TTL ∧
    (GetRecord c domain recordID).1.Value = (GetRecord.call c domain recordID).out.Record.Value ∧
    (GetRecord c domain recordID).1.MX = (GetRecord.call c domain recordID).out.Record.MX ∧
    (GetRecord c domain recordID).1.Enabled = (GetRecord.call c domain recordID).out.Record.Enabled ∧
    (GetRecord c domain recordID).1.Status = (GetRecord.call c domain recordID).out.Record.Status ∧
    (GetRecord c domain recordID).1.MonitorStatus = (GetRecord.call c domain recordID).out.Record.MonitorStatus ∧
    (GetRecord c domain recordID).1.Remark = (GetRecord.call c domain recordID).out.Record.Remark ∧
    (GetRecord c domain recordID).1.UpdateOn = (GetRecord.call c domain recordID).out.Record.UpdateOn ∧
    (GetRecord c domain recordID).1.UseAQB = (GetRecord.call c domain recordID).out.Record.UseAQB ∧
    ((GetRecord c domain recordID).1.Name = (GetRecord.call c domain recordID).out.Record.Name ∨
      (GetRecord c domain recordID).1.Name = (GetRecord.call c domain recordID).out.Record.SubDomain) ∧
    ((GetRecord c domain recordID).1.Type_ = (GetRecord.call c domain recordID).out.Record.Type_ ∨
      (GetRecord c domain recordID).1.Type_ = (GetRecord.call c domain recordID).out.Record.RecordType) ∧
    ((GetRecord c domain recordID).1.Line = (GetRecord.call c domain recordID).out.Record.Line ∨
      (GetRecord c domain recordID).1.Line = (GetRecord.call c domain recordID).out.Record.RecordLine) ∧
    ((GetRecord c domain recordID).1.LineID = (GetRecord.call c domain recordID).out.Record.LineID ∨
      (GetRecord c domain recordID).1.LineID = (GetRecord.call c domain recordID).out.Record.RecordLineID) := by
  rw [GetRecord_success c domain recordID herr hcode]
  obtain ⟨t, l, i, n⟩ := normalize_fields (GetRecord.call c domain recordID).out.Record
  obtain ⟨v, m, tt, st⟩ := normalize_other_fields (GetRecord.call c domain recordID).out.Record
  obtain ⟨a1, a2, a3, a4⟩ :=
    normalize_alias_fields (GetRecord.call c domain recordID).out.Record
  obtain ⟨i1, i2, i3⟩ := normalize_id_fields (GetRecord.call c domain recordID).out.Record
  obtain ⟨n1, n2, n3⟩ := normalize_note_fields (GetRecord.call c domain recordID).out.Record
  refine ⟨a1, a2, a3, a4, i1, tt, v, m, i2, st, i3, n1, n2, n3, ?_, ?_, ?_, ?_⟩
  · exact n ▸ firstNonEmpty_cases _ _
  · exact t ▸ firstNonEmpty_cases _ _
  · exact l ▸ firstNonEmpty_cases _ _
  · exact i ▸ firstNonEmpty_cases _ _

/-- Witness of C13: a response with the primary name "@" and the alias "www", and with the
alias "A" but no primary type: the name stays "@", the type becomes "A", the aliases and
the other fields stay as decoded. -/
theorem GetRecord_changes_only_canonical_fields_witness :
    (GetRecord (exampleClient none okStatus
        { ID := "26954449", Name := "@", TTL := "600", Value := "1.2.3.4", Status := "enable",
          SubDomain := "www", RecordType := "A" } [] []) "44146112" "26954449").1 =
      { ID := "26954449", Name := "@", Type_ := "A", TTL := "600", Value := "1.2.3.4",
        Status := "enable", SubDomain := "www", RecordType := "A" } ∧
    (GetRecord (exampleClient none okStatus
        { ID := "26954449", Name := "@", TTL := "600", Value := "1.2.3.4", Status := "enable",
          SubDomain := "www", RecordType := "A" } [] []) "44146112" "26954449").1.SubDomain = "www" ∧
    (GetRecord (exampleClient none okStatus
        { ID := "26954449", Name := "@", TTL := "600", Value := "1.2.3.4", Status := "enable",
          SubDomain := "www", RecordType := "A" } [] []) "44146112" "26954449").1.TTL = "600" :=
  ⟨by decide,
    (GetRecord_changes_only_canonical_fields (exampleClient none okStatus
        { ID := "26954449", Name := "@", TTL := "600", Value := "1.2.3.4", Status := "enable",
          SubDomain := "www", RecordType := "A" } [] []) "44146112" "26954449" rfl rfl).1,
    (GetRecord_changes_only_canonical_fields (exampleClient none okStatus
        { ID := "26954449", Name := "@", TTL := "600", Value := "1.2.3.4", Status := "enable",
          SubDomain := "www", RecordType := "A" } [] []) "44146112" "26954449" rfl rfl).2.2.2.2.2.1⟩

/-! ## Action names -/

theorem utf8ByteSize_pos_iff (a : String) : a.utf8ByteSize > 0 ↔ a ≠ "" := by
  obtain ⟨cs⟩ := a
  cases cs with
  | nil => simp [String.utf8ByteSize, String.utf8ByteSize.go]
  | cons c cs =>
    have hc := Char.utf8Size_pos c
    have hne : (⟨c :: cs⟩ : String) ≠ "" := fun h => by
      have := congrArg String.data h
      simp at this
    simp only [String.utf8ByteSize, String.utf8ByteSize.go, gt_iff_lt, ne_eq, hne,
      not_false_eq_true, iff_true]
    omega

theorem append_ne_self (s rest : String) (h : rest ≠ "") : s ++ rest ≠ s := by
  intro heq
  have hd := congrArg String.data heq
  rw [String.data_append, List.append_right_eq_self] at hd
  exact h (String.ext hd)

/-- C12: recordAction of a non-empty action is "Record." followed by the action, and of
the empty action it is "Record.List"; so "List" and the empty action both give
"Record.List", and every result is "Record." followed by a non-empty rest, never
"Record." alone. -/
theorem recordAction_spec (a : String) :
    (a ≠ "" → recordAction a = "Record." ++ a) ∧
    (a = "" → recordAction a = "Record.List") ∧
    recordAction "List" = "Record.List" ∧
    recordAction "" = "Record.List" ∧
    (∃ rest : String, rest ≠ "" ∧ recordAction a = "Record." ++ rest) ∧
    recordAction a ≠ "Record." := by
  have h1 : a ≠ "" → recordAction a = "Record." ++ a := fun h => by
    simp [recordAction, (utf8ByteSize_pos_iff a).2 h]
  have h2 : a = "" → recordAction a = "Record.List" := fun h => by
    subst h
    decide
  have h3 : ∃ rest : String, rest ≠ "" ∧ recordAction a = "Record." ++ rest := by
    by_cases h : a = ""
    · exact ⟨"List", by decide, by rw [h2 h]; decide⟩
    · exact ⟨a, h, h1 h⟩
  refine ⟨h1, h2, by decide, by decide, h3, ?_⟩
  obtain ⟨rest, hr, he⟩ := h3
  rw [he]
  exact append_ne_self _ _ hr

/-- Witness of C12: the action "Info" gives "Record.Info", the empty action "Record.List". -/
theorem recordAction_spec_witness :
    recordAction "Info" = "Record.Info" ∧ recordAction "" = "Record.List" :=
  ⟨(recordAction_spec "Info").1 (by decide), (recordAction_spec "").2.1 rfl⟩

end

end Dnspod
